import Mathlib

/-!
# Verification of `symfetch` (`src/system_info.rs`)

Shallow embedding of `SystemInfo::new` and `SystemInfo::as_vec` from
`src/src/system_info.rs`.  Every outcome of the ambient environment and OS
queries that the Rust code consults (environment variables, `sysinfo` data,
`whoami` results, the clock) is captured in an explicit `Env` record, so that
`SystemInfo.new : Env → SystemInfo` is the construction function and
`SystemInfo.as_vec : SystemInfo → List String` the renderer.

Machine integers (`u64`) are modelled as `Nat` with explicit `% 2 ^ 64`
wrapping where the Rust code performs arithmetic that could overflow
(the storage accumulation loop); release-build wrapping semantics are used.
-/

namespace Symfetch

/-- Wrap-around modulus of Rust's `u64`. -/
def u64Mod : Nat := 2 ^ 64

/-- Wrapping `u64` subtraction (`a - b` in release builds), for `a b < 2 ^ 64`.
Models `disk.total_space() - disk.available_space()`. -/
def u64sub (a b : Nat) : Nat := (a + u64Mod - b) % u64Mod

/-- One entry of `sysinfo::Disks`: per-volume byte counters
`total_space()` and `available_space()`. -/
structure Disk where
  total_space : Nat
  available_space : Nat
deriving Repr, DecidableEq

/-- Local timestamp captured by `Local::now()`; only the components consumed
by the `"%m/%d/%y %H:%M"` format string in `as_vec` are modelled. -/
structure LocalDateTime where
  year : Nat
  month : Nat
  day : Nat
  hour : Nat
  minute : Nat
deriving Repr, DecidableEq

/-- Zero-padding to two digits, as chrono's `%m`, `%d`, `%y`, `%H`, `%M` do. -/
def pad2 (n : Nat) : String := if n < 10 then "0" ++ toString n else toString n

/-- Render of `datetime.format("%m/%d/%y %H:%M")`. -/
def LocalDateTime.formatHeader (d : LocalDateTime) : String :=
  pad2 d.month ++ "/" ++ pad2 d.day ++ "/" ++ pad2 (d.year % 100) ++ " " ++
    pad2 d.hour ++ ":" ++ pad2 d.minute

/-- All ambient inputs read by `SystemInfo::new`.  `Option String` fields are
`None` when the corresponding query fails (`Err`) or the variable is unset. -/
structure Env where
  /-- `whoami::username()` outcome. -/
  username : Option String
  /-- `whoami::hostname()` outcome. -/
  hostname : Option String
  /-- `Local::now()`. -/
  now : LocalDateTime
  /-- `System::long_os_version()`. -/
  long_os_version : Option String
  /-- `System::kernel_version()`. -/
  kernel_version : Option String
  /-- `System::uptime()`, seconds since boot (`u64`). -/
  uptime_secs : Nat
  /-- `env::var("SHELL")` outcome. -/
  shell_var : Option String
  /-- `env::var("XDG_CURRENT_DESKTOP")` outcome. -/
  xdg_current_desktop : Option String
  /-- `env::var("DESKTOP_SESSION")` outcome. -/
  desktop_session : Option String
  /-- `env::var("TERM")` outcome. -/
  term_var : Option String
  /-- Brand strings of `sys.cpus()`, in enumeration order. -/
  cpus : List String
  /-- `sys.total_memory()` in bytes (`u64`). -/
  total_memory : Nat
  /-- `sys.used_memory()` in bytes (`u64`). -/
  used_memory : Nat
  /-- `Disks::new_with_refreshed_list()` entries. -/
  disks : List Disk
deriving Repr

/-- Rust's `str::split('/')` iterator, materialised: splits a character list at
every separator, always yielding at least one (possibly empty) group, exactly
as `"".split('/')` yields `[""]`. `consHead` prepends a character to the first
group. -/
def consHead (c : Char) : List (List Char) → List (List Char)
  | [] => [[c]]
  | g :: gs => (c :: g) :: gs

/-- See `consHead`: the groups produced by `s.split(sep)`. -/
def splitOnChar (sep : Char) : List Char → List (List Char)
  | [] => [[]]
  | c :: cs =>
    if c = sep then [] :: splitOnChar sep cs else consHead c (splitOnChar sep cs)

/-- The `shell` computation of `SystemInfo::new` (lines 49–54):
`env::var("SHELL").unwrap_or("Unknown").split('/').next_back().unwrap_or("Unknown")`.
`next_back()` on the split iterator is the last group. -/
def shellField (shell_var : Option String) : String :=
  let s := shell_var.getD "Unknown"
  match (splitOnChar '/' s.data).getLast? with
  | some seg => String.mk seg
  | none => "Unknown"

/-- The storage accumulation loop of `SystemInfo::new` (lines 89–95), with
`u64` wrapping semantics: returns (`total_storage`, `used_storage`). -/
def storageAcc : List Disk → Nat → Nat → Nat × Nat
  | [], t, u => (t, u)
  | d :: ds, t, u =>
    storageAcc ds ((t + d.total_space) % u64Mod)
      ((u + u64sub d.total_space d.available_space) % u64Mod)

/-- The `pub struct SystemInfo` of `system_info.rs`. -/
structure SystemInfo where
  user : String
  hostname : String
  datetime : LocalDateTime
  os_info : String
  uptime : String
  shell : String
  displays : String
  window_manager : String
  terminal : String
  font : String
  cpu : String
  gpu : String
  memory : String
  storage : String
deriving Repr, DecidableEq

/-- `SystemInfo::new()`, as a function of the ambient environment `Env`. -/
def SystemInfo.new (env : Env) : SystemInfo :=
  let user := env.username.getD "Unknown"
  let hostname := env.hostname.getD "Unknown"
  let datetime := env.now
  let os_info :=
    (env.long_os_version.getD "Unknown") ++ " " ++ (env.kernel_version.getD "Unknown")
  let uptime_secs := env.uptime_secs
  let uptime :=
    toString (uptime_secs / 86400) ++ "d " ++
      toString (uptime_secs % 86400 / 3600) ++ "h " ++
      toString (uptime_secs % 3600 / 60) ++ "m"
  let shell := shellField env.shell_var
  let displays := "1"
  let window_manager :=
    ((env.xdg_current_desktop).orElse (fun _ => env.desktop_session)).getD "Unknown"
  let terminal := env.term_var.getD "Unknown"
  let font := "Unknown"
  let cpu_info :=
    match env.cpus with
    | [] => "Unknown"
    | brand :: _ => brand.trim ++ " (" ++ toString env.cpus.length ++ " cores)"
  let gpu := "Unknown"
  let memory :=
    toString (env.used_memory / 1024 / 1024) ++ "MB / " ++
      toString (env.total_memory / 1024 / 1024) ++ "MB"
  let ts := storageAcc env.disks 0 0
  let storage :=
    toString (ts.2 / 1024 / 1024 / 1024) ++ "GB / " ++
      toString (ts.1 / 1024 / 1024 / 1024) ++ "GB"
  { user := user, hostname := hostname, datetime := datetime, os_info := os_info,
    uptime := uptime, shell := shell, displays := displays,
    window_manager := window_manager, terminal := terminal, font := font,
    cpu := cpu_info, gpu := gpu, memory := memory, storage := storage }

/-- `.bold().cyan()` of the `colored` crate (ANSI wrapping; the spec declares
styling cosmetic, only its wrapper shape matters). -/
def boldCyan (s : String) : String := "\x1b[1;36m" ++ s ++ "\x1b[0m"

/-- `.bold().yellow()` of the `colored` crate. -/
def boldYellow (s : String) : String := "\x1b[1;33m" ++ s ++ "\x1b[0m"

/-- `.dimmed()` of the `colored` crate. -/
def dimmedStyle (s : String) : String := "\x1b[2m" ++ s ++ "\x1b[0m"

/-- A field line of `as_vec`: `format!("{} {}", label.bold().yellow(), value)`. -/
def fieldLine (label value : String) : String := boldYellow label ++ " " ++ value

/-- The header line of `as_vec`:
`format!("{}@{} ({})", user.bold().cyan(), hostname.bold().cyan(), dt.dimmed())`. -/
def headerLine (info : SystemInfo) : String :=
  boldCyan info.user ++ "@" ++ boldCyan info.hostname ++ " (" ++
    dimmedStyle info.datetime.formatHeader ++ ")"

/-- `SystemInfo::as_vec()` (lines 120–144). -/
def SystemInfo.as_vec (info : SystemInfo) : List String :=
  [ headerLine info,
    "",
    fieldLine "OS:" info.os_info,
    fieldLine "Uptime:" info.uptime,
    fieldLine "Shell:" info.shell,
    fieldLine "Displays:" info.displays,
    fieldLine "WM:" info.window_manager,
    fieldLine "Terminal:" info.terminal,
    fieldLine "Font:" info.font,
    fieldLine "CPU:" info.cpu,
    fieldLine "GPU:" info.gpu,
    fieldLine "Memory:" info.memory,
    fieldLine "Storage:" info.storage ]

/-- The field labels of `as_vec`, with their trailing colons, in source order. -/
def fieldLabels : List String :=
  ["OS:", "Uptime:", "Shell:", "Displays:", "WM:", "Terminal:", "Font:",
   "CPU:", "GPU:", "Memory:", "Storage:"]

/-- The stored field values, in the order `as_vec` renders them. -/
def fieldValues (info : SystemInfo) : List String :=
  [info.os_info, info.uptime, info.shell, info.displays, info.window_manager,
   info.terminal, info.font, info.cpu, info.gpu, info.memory, info.storage]

/-- A concrete environment exercising the spec's worked examples:
`SHELL=/usr/bin/zsh`, uptime 90061 s, `DESKTOP_SESSION=gnome` with
`XDG_CURRENT_DESKTOP` unset, used/total memory 2 GiB / 8 GiB, and the two
example volumes (100 GiB with 60 GiB available, 50 GiB with 50 GiB available). -/
def baseEnv : Env where
  username := some "alice"
  hostname := some "box"
  now := ⟨2024, 5, 17, 13, 5⟩
  long_os_version := some "Ubuntu 24.04"
  kernel_version := some "6.8.0"
  uptime_secs := 90061
  shell_var := some "/usr/bin/zsh"
  xdg_current_desktop := none
  desktop_session := some "gnome"
  term_var := some "xterm-256color"
  cpus := ["AMD Ryzen 7"]
  total_memory := 8589934592
  used_memory := 2147483648
  disks := [⟨107374182400, 64424509440⟩, ⟨53687091200, 53687091200⟩]

/-! ## Helper lemmas -/

/-- The "text after the last path separator" of the spec (§4.1 step 5):
drops everything up to and including the last occurrence of `sep`;
the whole list when `sep` does not occur. -/
def specLastSegment (sep : Char) : List Char → List Char
  | [] => []
  | c :: cs => if c = sep ∨ sep ∈ cs then specLastSegment sep cs else c :: cs

lemma consHead_ne_nil (c : Char) (r : List (List Char)) : consHead c r ≠ [] := by
  cases r <;> simp [consHead]

lemma splitOnChar_ne_nil (sep : Char) (l : List Char) : splitOnChar sep l ≠ [] := by
  cases l with
  | nil => simp [splitOnChar]
  | cons c cs =>
    simp only [splitOnChar]
    split
    · simp
    · exact consHead_ne_nil _ _

lemma splitOnChar_of_not_mem (sep : Char) (l : List Char) (h : sep ∉ l) :
    splitOnChar sep l = [l] := by
  induction l with
  | nil => rfl
  | cons c cs ih =>
    have hc : ¬ c = sep := fun hh => h (by rw [hh]; exact List.mem_cons_self sep cs)
    have hcs : sep ∉ cs := fun hh => h (List.mem_cons_of_mem c hh)
    simp [splitOnChar, hc, ih hcs, consHead]

lemma splitOnChar_of_mem (sep : Char) (l : List Char) (h : sep ∈ l) :
    ∃ x y t, splitOnChar sep l = x :: y :: t := by
  induction l with
  | nil => cases h
  | cons c cs ih =>
    by_cases hc : c = sep
    · obtain ⟨g, gs, hr⟩ : ∃ g gs, splitOnChar sep cs = g :: gs := by
        cases hh : splitOnChar sep cs with
        | nil => exact absurd hh (splitOnChar_ne_nil sep cs)
        | cons g gs => exact ⟨g, gs, rfl⟩
      exact ⟨[], g, gs, by simp [splitOnChar, hc, hr]⟩
    · have hcs : sep ∈ cs := by
        cases h with
        | head => exact absurd rfl hc
        | tail _ hm => exact hm
      obtain ⟨x, y, t, hr⟩ := ih hcs
      exact ⟨c :: x, y, t, by simp [splitOnChar, hc, hr, consHead]⟩

lemma splitOnChar_getLast (sep : Char) (l : List Char) :
    (splitOnChar sep l).getLast? = some (specLastSegment sep l) := by
  induction l with
  | nil => rfl
  | cons c cs ih =>
    by_cases hc : c = sep
    · obtain ⟨g, gs, hr⟩ : ∃ g gs, splitOnChar sep cs = g :: gs := by
        cases hh : splitOnChar sep cs with
        | nil => exact absurd hh (splitOnChar_ne_nil sep cs)
        | cons g gs => exact ⟨g, gs, rfl⟩
      have : splitOnChar sep (c :: cs) = [] :: g :: gs := by simp [splitOnChar, hc, hr]
      rw [this, List.getLast?_cons_cons, ← hr, ih]
      simp [specLastSegment, hc]
    · by_cases hm : sep ∈ cs
      · obtain ⟨x, y, t, hr⟩ := splitOnChar_of_mem sep cs hm
        have : splitOnChar sep (c :: cs) = (c :: x) :: y :: t := by
          simp [splitOnChar, hc, hr, consHead]
        rw [this, List.getLast?_cons_cons, ← List.getLast?_cons_cons (l := t) (a := x), ← hr, ih]
        simp [specLastSegment, hc, hm]
      · have : splitOnChar sep (c :: cs) = [c :: cs] := by
          simp [splitOnChar, hc, splitOnChar_of_not_mem sep cs hm, consHead]
        rw [this]
        simp [specLastSegment, hc, hm]

/-- `shellField` on a present variable is exactly the spec's
"text after the last path separator". -/
lemma shellField_some (v : String) :
    shellField (some v) = String.mk (specLastSegment '/' v.data) := by
  simp [shellField, splitOnChar_getLast]

lemma specLastSegment_cons (sep c : Char) (cs : List Char) :
    specLastSegment sep (c :: cs) =
      if c = sep ∨ sep ∈ cs then specLastSegment sep cs else c :: cs := rfl

lemma specLastSegment_ne_nil (sep : Char) :
    ∀ l : List Char, l ≠ [] → l.getLast? ≠ some sep → specLastSegment sep l ≠ [] := by
  intro l
  induction l with
  | nil => intro h _; exact absurd rfl h
  | cons c cs ih =>
    intro _ h2
    by_cases hcond : c = sep ∨ sep ∈ cs
    · cases cs with
      | nil =>
        rcases hcond with hc | hmem
        · exact absurd (by simp [hc]) h2
        · cases hmem
      | cons c2 cs2 =>
        have h3 := ih (by simp) (by rwa [List.getLast?_cons_cons] at h2)
        rw [specLastSegment_cons, if_pos hcond]
        exact h3
    · rw [specLastSegment_cons, if_neg hcond]
      simp

lemma strMk_ne_empty (l : List Char) (h : l ≠ []) : String.mk l ≠ "" := by
  intro he
  exact h (by simpa using congrArg String.data he)

lemma ne_empty_of_data_ne_nil (s : String) (h : s.data ≠ []) : s ≠ "" := by
  intro he
  rw [he] at h
  exact h rfl

lemma data_ne_nil_of_ne_empty (s : String) (h : s ≠ "") : s.data ≠ [] := by
  intro hd
  exact h (String.ext hd)

lemma append_ne_empty_right (a b : String) (h : b ≠ "") : a ++ b ≠ "" := by
  apply ne_empty_of_data_ne_nil
  rw [String.data_append]
  simp [data_ne_nil_of_ne_empty b h]

lemma append_ne_empty_left (a b : String) (h : a ≠ "") : a ++ b ≠ "" := by
  apply ne_empty_of_data_ne_nil
  rw [String.data_append]
  simp [data_ne_nil_of_ne_empty a h]

/-! ## Field equations of `SystemInfo.new` -/

lemma new_user (env : Env) :
    (SystemInfo.new env).user = env.username.getD "Unknown" := rfl

lemma new_host (env : Env) :
    (SystemInfo.new env).hostname = env.hostname.getD "Unknown" := rfl

lemma new_datetime (env : Env) :
    (SystemInfo.new env).datetime = env.now := rfl

lemma new_os_info (env : Env) :
    (SystemInfo.new env).os_info =
      (env.long_os_version.getD "Unknown") ++ " " ++
        (env.kernel_version.getD "Unknown") := rfl

lemma new_uptime (env : Env) :
    (SystemInfo.new env).uptime =
      toString (env.uptime_secs / 86400) ++ "d " ++
        toString (env.uptime_secs % 86400 / 3600) ++ "h " ++
        toString (env.uptime_secs % 3600 / 60) ++ "m" := rfl

lemma new_shell (env : Env) :
    (SystemInfo.new env).shell = shellField env.shell_var := rfl

lemma new_displays (env : Env) : (SystemInfo.new env).displays = "1" := rfl

lemma new_window_manager (env : Env) :
    (SystemInfo.new env).window_manager =
      ((env.xdg_current_desktop).orElse (fun _ => env.desktop_session)).getD
        "Unknown" := rfl

lemma new_terminal (env : Env) :
    (SystemInfo.new env).terminal = env.term_var.getD "Unknown" := rfl

lemma new_font (env : Env) : (SystemInfo.new env).font = "Unknown" := rfl

lemma new_cpu (env : Env) :
    (SystemInfo.new env).cpu =
      match env.cpus with
      | [] => "Unknown"
      | brand :: _ =>
        brand.trim ++ " (" ++ toString env.cpus.length ++ " cores)" := rfl

lemma new_gpu (env : Env) : (SystemInfo.new env).gpu = "Unknown" := rfl

lemma new_memory (env : Env) :
    (SystemInfo.new env).memory =
      toString (env.used_memory / 1024 / 1024) ++ "MB / " ++
        toString (env.total_memory / 1024 / 1024) ++ "MB" := rfl

lemma new_storage (env : Env) :
    (SystemInfo.new env).storage =
      toString ((storageAcc env.disks 0 0).2 / 1024 / 1024 / 1024) ++ "GB / " ++
        toString ((storageAcc env.disks 0 0).1 / 1024 / 1024 / 1024) ++ "GB" := rfl

/-- Exact characterisation of the storage loop when no volume reports MORE
available than total space and the byte totals fit in `u64`: the wrapping
arithmetic computes the plain sums. -/
lemma storageAcc_spec :
    ∀ (ds : List Disk) (t u : Nat),
      (∀ d ∈ ds, d.available_space ≤ d.total_space) →
      u ≤ t →
      t + (ds.map Disk.total_space).sum < u64Mod →
      storageAcc ds t u =
        (t + (ds.map Disk.total_space).sum,
         u + (ds.map (fun d => d.total_space - d.available_space)).sum) := by
  intro ds
  induction ds with
  | nil => intro t u _ _ _; simp [storageAcc]
  | cons d ds ih =>
    intro t u hle hut hov
    have hW : u64Mod = 18446744073709551616 := rfl
    have hd : d.available_space ≤ d.total_space :=
      hle d (List.mem_cons_self d ds)
    have hsum : (List.map Disk.total_space (d :: ds)).sum =
        d.total_space + (List.map Disk.total_space ds).sum := by simp
    have h1 : t + d.total_space < u64Mod := by
      rw [hsum] at hov; omega
    have hsub : u64sub d.total_space d.available_space =
        d.total_space - d.available_space := by
      simp only [u64sub]
      have heq : d.total_space + u64Mod - d.available_space =
          u64Mod + (d.total_space - d.available_space) := by omega
      rw [heq, Nat.add_mod_left, Nat.mod_eq_of_lt (by omega)]
    have ht1 : (t + d.total_space) % u64Mod = t + d.total_space :=
      Nat.mod_eq_of_lt h1
    have hu1 : (u + (d.total_space - d.available_space)) % u64Mod =
        u + (d.total_space - d.available_space) :=
      Nat.mod_eq_of_lt (by omega)
    have hrec := ih (t + d.total_space) (u + (d.total_space - d.available_space))
      (fun x hx => hle x (List.mem_cons_of_mem d hx))
      (by omega) (by rw [hsum] at hov; omega)
    simp only [storageAcc, hsub, ht1, hu1, hrec]
    rw [hsum, Prod.mk.injEq]
    refine ⟨by omega, ?_⟩
    simp only [List.map_cons, List.sum_cons]
    omega

/-- The storage field as the plain byte sums, under the physical side conditions
(per-volume `available ≤ total`, totals fit in `u64`). -/
lemma storage_field_eq (env : Env)
    (h1 : ∀ d ∈ env.disks, d.available_space ≤ d.total_space)
    (h2 : (env.disks.map Disk.total_space).sum < u64Mod) :
    (SystemInfo.new env).storage =
      toString
          ((env.disks.map (fun d => d.total_space - d.available_space)).sum /
            1073741824) ++ "GB / " ++
        toString ((env.disks.map Disk.total_space).sum / 1073741824) ++ "GB" := by
  have hs := storageAcc_spec env.disks 0 0 h1 (Nat.le_refl 0)
    (by simpa using h2)
  rw [new_storage, hs]
  simp only [Nat.zero_add]
  rw [Nat.div_div_eq_div_mul, Nat.div_div_eq_div_mul,
    Nat.div_div_eq_div_mul, Nat.div_div_eq_div_mul]


/-! ## Claims -/

/-- C1, counterexample: with `SHELL` set to the empty string, the shell field
is the empty string, not the literal "Unknown" the claim requires
(`"".split('/').next_back()` is `Some("")`, so the trailing
`.unwrap_or("Unknown")` never fires). -/
theorem C1_counterexample :
    (SystemInfo.new { baseEnv with shell_var := some "" }).shell = "" ∧
    (SystemInfo.new { baseEnv with shell_var := some "" }).shell ≠ "Unknown" :=
  ⟨by decide, by decide⟩

/-- C1, amended: for every set value of `SHELL` the shell field is the text
after the last path separator of that value (hence empty when the value is
empty or ends in a separator), and it is "Unknown" when the variable is unset
(the placeholder itself contains no separator and survives the split). -/
theorem C1_shell_resolution (env : Env) :
    (env.shell_var = none → (SystemInfo.new env).shell = "Unknown") ∧
    (∀ v, env.shell_var = some v →
      (SystemInfo.new env).shell = String.mk (specLastSegment '/' v.data)) := by
  constructor
  · intro h
    rw [new_shell, h]
    decide
  · intro v h
    rw [new_shell, h, shellField_some]

/-- C1, witness: `SHELL=/usr/bin/zsh` yields "zsh". -/
theorem C1_shell_resolution_witness :
    (SystemInfo.new baseEnv).shell = "zsh" := by
  rw [(C1_shell_resolution baseEnv).2 "/usr/bin/zsh" rfl]
  decide

/-- C2, counterexample: with `TERM` set to the empty string the constructed
report's terminal field is the empty string, refuting "every one of the
fourteen fields is a non-empty text value". -/
theorem C2_counterexample :
    (SystemInfo.new { baseEnv with term_var := some "" }).terminal = "" := by
  decide

/-- C2, amended: construction is total (`SystemInfo.new` is a total function
of every environment/OS outcome), and every one of the thirteen text fields is
non-empty provided each environment or identity string that is present is
non-empty and the shell value does not end in a path separator; a failed
lookup always yields the documented placeholder.  (A variable set to the empty
string, or a `SHELL` ending in `/`, yields an empty field.) -/
theorem C2_fields_nonempty (env : Env)
    (hu : ∀ s, env.username = some s → s ≠ "")
    (hh : ∀ s, env.hostname = some s → s ≠ "")
    (hs : ∀ s, env.shell_var = some s → s ≠ "" ∧ s.data.getLast? ≠ some '/')
    (hx : ∀ s, env.xdg_current_desktop = some s → s ≠ "")
    (hd : ∀ s, env.desktop_session = some s → s ≠ "")
    (ht : ∀ s, env.term_var = some s → s ≠ "") :
    (SystemInfo.new env).user ≠ "" ∧
    (SystemInfo.new env).hostname ≠ "" ∧
    (SystemInfo.new env).os_info ≠ "" ∧
    (SystemInfo.new env).uptime ≠ "" ∧
    (SystemInfo.new env).shell ≠ "" ∧
    (SystemInfo.new env).displays ≠ "" ∧
    (SystemInfo.new env).window_manager ≠ "" ∧
    (SystemInfo.new env).terminal ≠ "" ∧
    (SystemInfo.new env).font ≠ "" ∧
    (SystemInfo.new env).cpu ≠ "" ∧
    (SystemInfo.new env).gpu ≠ "" ∧
    (SystemInfo.new env).memory ≠ "" ∧
    (SystemInfo.new env).storage ≠ "" := by
  refine ⟨?_, ?_, ?_, ?_, ?_, ?_, ?_, ?_, ?_, ?_, ?_, ?_, ?_⟩
  · rw [new_user]
    cases h : env.username with
    | none => decide
    | some s => simpa using hu s h
  · rw [new_host]
    cases h : env.hostname with
    | none => decide
    | some s => simpa using hh s h
  · rw [new_os_info]
    exact append_ne_empty_left _ _ (append_ne_empty_right _ _ (by decide))
  · rw [new_uptime]
    exact append_ne_empty_right _ _ (by decide)
  · rw [new_shell]
    cases h : env.shell_var with
    | none => decide
    | some v =>
      obtain ⟨hv1, hv2⟩ := hs v h
      rw [shellField_some]
      exact strMk_ne_empty _
        (specLastSegment_ne_nil _ _ (data_ne_nil_of_ne_empty v hv1) hv2)
  · rw [new_displays]; decide
  · rw [new_window_manager]
    cases h1 : env.xdg_current_desktop with
    | some s => exact hx s h1
    | none =>
      cases h2 : env.desktop_session with
      | some s => exact hd s h2
      | none => decide
  · rw [new_terminal]
    cases h : env.term_var with
    | none => decide
    | some s => simpa using ht s h
  · rw [new_font]; decide
  · rw [new_cpu]
    cases h : env.cpus with
    | nil => decide
    | cons b rest =>
      exact append_ne_empty_right _ _ (by decide)
  · rw [new_gpu]; decide
  · rw [new_memory]
    exact append_ne_empty_right _ _ (by decide)
  · rw [new_storage]
    exact append_ne_empty_right _ _ (by decide)

/-- C2, witness: all thirteen text fields are non-empty on the concrete
environment `baseEnv`. -/
theorem C2_fields_nonempty_witness :
    (SystemInfo.new baseEnv).user ≠ "" ∧
    (SystemInfo.new baseEnv).hostname ≠ "" ∧
    (SystemInfo.new baseEnv).os_info ≠ "" ∧
    (SystemInfo.new baseEnv).uptime ≠ "" ∧
    (SystemInfo.new baseEnv).shell ≠ "" ∧
    (SystemInfo.new baseEnv).displays ≠ "" ∧
    (SystemInfo.new baseEnv).window_manager ≠ "" ∧
    (SystemInfo.new baseEnv).terminal ≠ "" ∧
    (SystemInfo.new baseEnv).font ≠ "" ∧
    (SystemInfo.new baseEnv).cpu ≠ "" ∧
    (SystemInfo.new baseEnv).gpu ≠ "" ∧
    (SystemInfo.new baseEnv).memory ≠ "" ∧
    (SystemInfo.new baseEnv).storage ≠ "" :=
  C2_fields_nonempty baseEnv
    (fun s h => by injection h with h2; rw [← h2]; decide)
    (fun s h => by injection h with h2; rw [← h2]; decide)
    (fun s h => by injection h with h2; rw [← h2]; exact ⟨by decide, by decide⟩)
    (fun s h => by simp [baseEnv] at h)
    (fun s h => by injection h with h2; rw [← h2]; decide)
    (fun s h => by injection h with h2; rw [← h2]; decide)

/-- C3: the uptime field is `"{S/86400}d {(S%86400)/3600}h {(S%3600)/60}m"`
with integer division, and S = 90061 yields "1d 1h 1m". -/
theorem C3_uptime_format (env : Env) :
    (SystemInfo.new env).uptime =
      toString (env.uptime_secs / 86400) ++ "d " ++
        toString (env.uptime_secs % 86400 / 3600) ++ "h " ++
        toString (env.uptime_secs % 3600 / 60) ++ "m" ∧
    (env.uptime_secs = 90061 → (SystemInfo.new env).uptime = "1d 1h 1m") := by
  refine ⟨new_uptime env, fun h => ?_⟩
  rw [new_uptime env, h]
  decide

/-- C3, witness: uptime 90061 s renders as "1d 1h 1m". -/
theorem C3_uptime_format_witness :
    (SystemInfo.new baseEnv).uptime = "1d 1h 1m" :=
  (C3_uptime_format baseEnv).2 rfl

/-- C4: the storage field is `"{U}GB / {T}GB"` where T is the sum of all
volume totals and U the sum of (total − available), each integer-divided by
1073741824; stated for volume lists with per-volume `available ≤ total` and
totals fitting in `u64` (the `u64` accumulation is then exact). -/
theorem C4_storage_format (env : Env)
    (h1 : ∀ d ∈ env.disks, d.available_space ≤ d.total_space)
    (h2 : (env.disks.map Disk.total_space).sum < 2 ^ 64) :
    (SystemInfo.new env).storage =
      toString
          ((env.disks.map (fun d => d.total_space - d.available_space)).sum /
            1073741824) ++ "GB / " ++
        toString ((env.disks.map Disk.total_space).sum / 1073741824) ++ "GB" :=
  storage_field_eq env h1 (by simpa [u64Mod] using h2)

/-- C4, witness: volumes (100 GiB, 60 GiB available) and (50 GiB, 50 GiB
available) render as "40GB / 150GB". -/
theorem C4_storage_format_witness :
    (SystemInfo.new baseEnv).storage = "40GB / 150GB" := by
  rw [C4_storage_format baseEnv (by decide) (by decide)]
  decide

/-- C5: the memory field is `"{used/1048576}MB / {total/1048576}MB"` with
integer division, for `u64` byte counts. -/
theorem C5_memory_format (env : Env)
    (_h1 : env.used_memory < 2 ^ 64) (_h2 : env.total_memory < 2 ^ 64) :
    (SystemInfo.new env).memory =
      toString (env.used_memory / 1048576) ++ "MB / " ++
        toString (env.total_memory / 1048576) ++ "MB" := by
  rw [new_memory, Nat.div_div_eq_div_mul, Nat.div_div_eq_div_mul]

/-- C5, witness: used = 2147483648 B and total = 8589934592 B render as
"2048MB / 8192MB". -/
theorem C5_memory_format_witness :
    (SystemInfo.new baseEnv).memory = "2048MB / 8192MB" := by
  rw [C5_memory_format baseEnv (by decide) (by decide)]
  decide

/-- C6: the window_manager field is the value of `XDG_CURRENT_DESKTOP` when
set, else the value of `DESKTOP_SESSION` when set, else "Unknown". -/
theorem C6_window_manager_fallback (env : Env) :
    (∀ v, env.xdg_current_desktop = some v →
      (SystemInfo.new env).window_manager = v) ∧
    (env.xdg_current_desktop = none →
      ∀ v, env.desktop_session = some v →
        (SystemInfo.new env).window_manager = v) ∧
    (env.xdg_current_desktop = none → env.desktop_session = none →
      (SystemInfo.new env).window_manager = "Unknown") := by
  refine ⟨fun v h => ?_, fun h1 v h2 => ?_, fun h1 h2 => ?_⟩
  · rw [new_window_manager, h]; rfl
  · rw [new_window_manager, h1, h2]; rfl
  · rw [new_window_manager, h1, h2]; rfl

/-- C6, witness: first variable unset and second set to "gnome" yields
"gnome". -/
theorem C6_window_manager_fallback_witness :
    (SystemInfo.new baseEnv).window_manager = "gnome" :=
  (C6_window_manager_fallback baseEnv).2.1 rfl "gnome" rfl

/-- C7: the rendered sequence always has exactly 13 lines — header, blank,
then one line per field in the fixed order OS, Uptime, Shell, Displays, WM,
Terminal, Font, CPU, GPU, Memory, Storage. -/
theorem C7_line_count (info : SystemInfo) :
    info.as_vec.length = 13 ∧
    info.as_vec =
      [headerLine info, "",
       fieldLine "OS:" info.os_info, fieldLine "Uptime:" info.uptime,
       fieldLine "Shell:" info.shell, fieldLine "Displays:" info.displays,
       fieldLine "WM:" info.window_manager, fieldLine "Terminal:" info.terminal,
       fieldLine "Font:" info.font, fieldLine "CPU:" info.cpu,
       fieldLine "GPU:" info.gpu, fieldLine "Memory:" info.memory,
       fieldLine "Storage:" info.storage] :=
  ⟨rfl, rfl⟩

/-- C8: every field line is the template `fieldLine` — the emphasized label
with its trailing colon, a space, and the stored value — with the labels
exactly as listed, pairing `fieldLabels` with the stored `fieldValues`. -/
theorem C8_field_line_template (info : SystemInfo) :
    info.as_vec.drop 2 = List.zipWith fieldLine fieldLabels (fieldValues info) :=
  rfl

/-- C9: rendering is pure and deterministic — `as_vec` is a function of the
report value alone, so two invocations on the same report yield identical
sequences (and the embedding's `as_vec` takes the report immutably: no state
is threaded that could change it). -/
theorem C9_as_vec_deterministic (r1 r2 : SystemInfo) (h : r1 = r2) :
    r1.as_vec = r2.as_vec := by
  rw [h]

/-- C9, witness: two renderings of the same concrete report agree. -/
theorem C9_as_vec_deterministic_witness :
    (SystemInfo.new baseEnv).as_vec = (SystemInfo.new baseEnv).as_vec :=
  C9_as_vec_deterministic (SystemInfo.new baseEnv) (SystemInfo.new baseEnv) rfl

/-- C10: when every volume's available space is at most its total and the
byte sums fit in `u64`, aggregated used ≤ aggregated total, and the number
rendered before "GB /" does not exceed the one after. -/
theorem C10_used_le_total (env : Env)
    (h1 : ∀ d ∈ env.disks, d.available_space ≤ d.total_space)
    (h2 : (env.disks.map Disk.total_space).sum < 2 ^ 64) :
    (env.disks.map (fun d => d.total_space - d.available_space)).sum ≤
      (env.disks.map Disk.total_space).sum ∧
    (SystemInfo.new env).storage =
      toString
          ((env.disks.map (fun d => d.total_space - d.available_space)).sum /
            1073741824) ++ "GB / " ++
        toString ((env.disks.map Disk.total_space).sum / 1073741824) ++ "GB" ∧
    (env.disks.map (fun d => d.total_space - d.available_space)).sum /
        1073741824 ≤
      (env.disks.map Disk.total_space).sum / 1073741824 := by
  have hle : (env.disks.map (fun d => d.total_space - d.available_space)).sum ≤
      (env.disks.map Disk.total_space).sum :=
    List.sum_le_sum (fun d _ => Nat.sub_le _ _)
  exact ⟨hle, storage_field_eq env h1 (by simpa [u64Mod] using h2),
    Nat.div_le_div_right hle⟩

/-- C10, witness: on the two example volumes the hypotheses hold and
aggregated used ≤ aggregated total. -/
theorem C10_used_le_total_witness :
    (∀ d ∈ baseEnv.disks, d.available_space ≤ d.total_space) ∧
    (baseEnv.disks.map (fun d => d.total_space - d.available_space)).sum ≤
      (baseEnv.disks.map Disk.total_space).sum :=
  ⟨by decide, (C10_used_le_total baseEnv (by decide) (by decide)).1⟩

end Symfetch
